import Mathlib

/-!
Shallow embedding of the GTK cloud-provider synchronization subsystem
(`gtk/gtkcloudprovider.c` and the example daemon
`tests/testcloudproviderserver.c`).

The proxy side is modelled as a state (`GtkCloudProviderPrivate`, mirroring
the C private struct) together with the handler functions translated from the
C source (`on_get_name`, `on_get_status`, `gtk_cloud_provider_update`,
`on_proxy_created`, `gtk_cloud_provider_new`, and the four accessors).  Each
handler returns the updated state and an `Output` record of its observable
side effects: the remote calls it issued, the number of "changed" signal
emissions, the number of `g_warning` messages, and the number of GLib
criticals (a critical is what `g_variant_unref` produces when handed NULL,
via its `g_return_if_fail`).

Asynchrony is modelled by an event-loop trace semantics: an `Event` is the
completion of one asynchronous operation (connection established, a GetName
or GetStatus reply arriving) or a caller-driven `refresh`; `run` folds a
list of events over the state.  `ValidTrace` captures which event sequences
the GLib main loop can actually deliver: a reply only arrives for a call
that was issued, and the connection-creation callback fires exactly once.
-/

namespace Gtk

/-- `GtkCloudProviderStatus` from `gtkcloudprovider.h`: a C enum whose
members take the default consecutive values starting at 0. -/
inductive GtkCloudProviderStatus where
  | INVALID
  | IDLE
  | SYNCING
  | ERROR
deriving DecidableEq, Repr

/-- The integer value of each `GtkCloudProviderStatus` member
(C default enum numbering: INVALID = 0, IDLE = 1, SYNCING = 2, ERROR = 3). -/
def GtkCloudProviderStatus.toInt : GtkCloudProviderStatus → Int
  | .INVALID => 0
  | .IDLE => 1
  | .SYNCING => 2
  | .ERROR => 3

/-- Decode a cached int32 status back into the enumeration, when it is in
range. -/
def GtkCloudProviderStatus.ofInt (i : Int) : Option GtkCloudProviderStatus :=
  if i = 0 then some .INVALID
  else if i = 1 then some .IDLE
  else if i = 2 then some .SYNCING
  else if i = 3 then some .ERROR
  else none

/-- Result of an asynchronous D-Bus operation as seen by a
`GAsyncReadyCallback`: either the finished value or a `GError` message. -/
inductive DBusResult (α : Type) where
  | ok (v : α)
  | err (message : String)
deriving DecidableEq, Repr

/-- `g_dbus_proxy_call_finish` / `g_dbus_proxy_new_for_bus_finish`: returns
the result (the reply tuple, NULL on error) and sets the `GError`. -/
def g_dbus_proxy_call_finish {α : Type} : DBusResult α → Option α
  | .ok v => some v
  | .err _ => none

/-- GLib `g_variant_unref`.  Its first statement is
`g_return_if_fail (value != NULL)`: called on NULL it logs a critical and
does nothing.  We record the number of criticals produced (0 or 1). -/
def g_variant_unref {α : Type} (value : Option α) : Nat :=
  if value.isSome then 0 else 1

/-- The `GtkCloudProviderPrivate` struct.  A fresh GObject instance is
zero-initialized, so `name`, `icon`, `menu` and `proxy` start as NULL and
`status` starts as 0 (= `GTK_CLOUD_PROVIDER_STATUS_INVALID`).  `status` is
kept as the raw int32 the C field holds: `on_get_status` stores
`g_variant_get_int32` into it without range checking. -/
structure GtkCloudProviderPrivate where
  name : Option String
  status : Int
  icon : Option Unit
  menu : Option Unit
  proxy : Option Unit
  bus_name : String
  object_path : String
deriving DecidableEq, Repr

/-- Observable side effects of one handler invocation: remote method calls
issued via `g_dbus_proxy_call` (in program order), "changed" signal
emissions, `g_warning` messages, and GLib criticals. -/
structure Output where
  calls : List String
  changed : Nat
  warnings : Nat
  criticals : Nat
deriving DecidableEq, Repr

/-- The all-zero output: no calls, no emissions, no diagnostics. -/
def Output.none : Output :=
  { calls := [], changed := 0, warnings := 0, criticals := 0 }

/-- `on_get_name`: completion handler of the asynchronous "GetName" call.
On success it stores the reply string into `priv->name`; on error it logs a
warning and jumps to `out`.  Either way the code then runs the `out` block —
`g_variant_unref (variant_tuple)` (on the error path `variant_tuple` is
NULL, which is where the critical comes from) — and emits "changed". -/
def on_get_name (priv : GtkCloudProviderPrivate) (res : DBusResult String) :
    GtkCloudProviderPrivate × Output :=
  let variant_tuple := g_dbus_proxy_call_finish res
  match res with
  | .err _message =>
      (priv,
       { calls := [], changed := 1, warnings := 1,
         criticals := g_variant_unref variant_tuple })
  | .ok v =>
      ({ priv with name := some v },
       { calls := [], changed := 1, warnings := 0,
         criticals := g_variant_unref variant_tuple })

/-- `on_get_status`: completion handler of the asynchronous "GetStatus"
call.  On success it stores the int32 reply into `priv->status`; on error it
logs a warning and jumps to `out`.  Either way it then unrefs
`variant_tuple` and emits "changed". -/
def on_get_status (priv : GtkCloudProviderPrivate) (res : DBusResult Int) :
    GtkCloudProviderPrivate × Output :=
  let variant_tuple := g_dbus_proxy_call_finish res
  match res with
  | .err _message =>
      (priv,
       { calls := [], changed := 1, warnings := 1,
         criticals := g_variant_unref variant_tuple })
  | .ok v =>
      ({ priv with status := v },
       { calls := [], changed := 1, warnings := 0,
         criticals := g_variant_unref variant_tuple })

/-- `gtk_cloud_provider_update`: if the proxy exists, issue the two
asynchronous calls "GetName" and "GetStatus"; otherwise do nothing. -/
def gtk_cloud_provider_update (priv : GtkCloudProviderPrivate) :
    GtkCloudProviderPrivate × Output :=
  if priv.proxy.isSome then
    (priv,
     { calls := ["GetName", "GetStatus"], changed := 0, warnings := 0,
       criticals := 0 })
  else
    (priv, Output.none)

/-- `on_proxy_created`: completion handler of the asynchronous
`g_dbus_proxy_new_for_bus`.  On error it logs a warning and returns (the
`priv->proxy = ...finish(...)` assignment stores NULL); on success it stores
the proxy and calls `gtk_cloud_provider_update`. -/
def on_proxy_created (priv : GtkCloudProviderPrivate)
    (res : DBusResult Unit) : GtkCloudProviderPrivate × Output :=
  match res with
  | .err _message =>
      ({ priv with proxy := g_dbus_proxy_call_finish res },
       { calls := [], changed := 0, warnings := 1, criticals := 0 })
  | .ok p =>
      gtk_cloud_provider_update { priv with proxy := some p }

/-- `gtk_cloud_provider_new`: the state of a freshly constructed provider.
`g_object_new` zero-initializes the private struct; the constructor then
fills `bus_name` and `object_path` and starts the asynchronous
`g_dbus_proxy_new_for_bus` (whose pendingness the trace state tracks). -/
def gtk_cloud_provider_new (bus_name object_path : String) :
    GtkCloudProviderPrivate :=
  { name := Option.none, status := GtkCloudProviderStatus.INVALID.toInt,
    icon := Option.none, menu := Option.none, proxy := Option.none,
    bus_name := bus_name, object_path := object_path }

/-- `gtk_cloud_provider_get_name`: returns the cached name. -/
def gtk_cloud_provider_get_name (priv : GtkCloudProviderPrivate) :
    Option String :=
  priv.name

/-- `gtk_cloud_provider_get_status`: returns the cached status value. -/
def gtk_cloud_provider_get_status (priv : GtkCloudProviderPrivate) : Int :=
  priv.status

/-- `gtk_cloud_provider_get_icon`: returns the cached icon. -/
def gtk_cloud_provider_get_icon (priv : GtkCloudProviderPrivate) :
    Option Unit :=
  priv.icon

/-- `gtk_cloud_provider_get_menu`: returns the cached menu model. -/
def gtk_cloud_provider_get_menu (priv : GtkCloudProviderPrivate) :
    Option Unit :=
  priv.menu

/-- One event delivered by the main loop to a single provider instance:
completion of the asynchronous connection, a caller-driven refresh
(`gtk_cloud_provider_update`), or completion of one of the two remote
calls. -/
inductive Event where
  | proxyCreated (res : DBusResult Unit)
  | refresh
  | getNameReply (res : DBusResult String)
  | getStatusReply (res : DBusResult Int)
deriving DecidableEq, Repr

/-- Trace state of one provider: the private struct plus main-loop
bookkeeping — whether the asynchronous `g_dbus_proxy_new_for_bus` started by
the constructor is still pending, and how many GetName / GetStatus calls are
in flight. -/
structure ProxySt where
  priv : GtkCloudProviderPrivate
  connectPending : Bool
  pendingName : Nat
  pendingStatus : Nat
deriving DecidableEq, Repr

/-- State right after `gtk_cloud_provider_new`: zeroed private struct, the
connection attempt pending, no calls in flight. -/
def initialSt (bus_name object_path : String) : ProxySt :=
  { priv := gtk_cloud_provider_new bus_name object_path,
    connectPending := true, pendingName := 0, pendingStatus := 0 }

/-- Record the remote calls a handler issued as in-flight. -/
def applyCalls (s : ProxySt) (out : Output) : ProxySt :=
  { s with
    pendingName := s.pendingName + out.calls.count "GetName",
    pendingStatus := s.pendingStatus + out.calls.count "GetStatus" }

/-- Deliver one event: dispatch to the handler translated from the C source
and update the main-loop bookkeeping. -/
def step (s : ProxySt) (e : Event) : ProxySt × Output :=
  match e with
  | .proxyCreated res =>
      let po := on_proxy_created s.priv res
      (applyCalls { s with priv := po.1, connectPending := false } po.2,
       po.2)
  | .refresh =>
      let po := gtk_cloud_provider_update s.priv
      (applyCalls { s with priv := po.1 } po.2, po.2)
  | .getNameReply res =>
      let po := on_get_name s.priv res
      ({ s with priv := po.1, pendingName := s.pendingName - 1 }, po.2)
  | .getStatusReply res =>
      let po := on_get_status s.priv res
      ({ s with priv := po.1, pendingStatus := s.pendingStatus - 1 }, po.2)

/-- Deliver a list of events in order, collecting each step's output. -/
def run (s : ProxySt) : List Event → ProxySt × List Output
  | [] => (s, [])
  | e :: es =>
      let so := step s e
      let rest := run so.1 es
      (rest.1, so.2 :: rest.2)

/-- Which events the main loop can deliver in the given state: the
connection-creation callback fires only while the connection is pending
(and it fires at most once — `step` clears the flag), a reply only arrives
for an in-flight call, and a caller may refresh at any time. -/
def validEvent (s : ProxySt) : Event → Bool
  | .proxyCreated _ => s.connectPending
  | .refresh => true
  | .getNameReply _ => decide (0 < s.pendingName)
  | .getStatusReply _ => decide (0 < s.pendingStatus)

/-- A deliverable event sequence: every event is valid in the state it is
delivered in. -/
def ValidTrace : ProxySt → List Event → Bool
  | _, [] => true
  | s, e :: es => validEvent s e && ValidTrace (step s e).1 es

/-- All remote calls issued over a list of step outputs, in order. -/
def totalCalls (outs : List Output) : List String :=
  outs.foldr (fun o acc => o.calls ++ acc) []

/-- Total number of "changed" signal emissions over a list of step
outputs. -/
def totalChanged (outs : List Output) : Nat :=
  outs.foldr (fun o acc => o.changed + acc) 0

/- Model of the example daemon `tests/testcloudproviderserver.c`. -/
namespace TestServer

/-- First member of the server's own anonymous enum: `IDLE` (value 0). -/
def IDLE : Int := 0

/-- Second member of the server's enum: `SYNCING` (value 1). -/
def SYNCING : Int := 1

/-- Third member of the server's enum: `ERROR` (value 2). -/
def ERROR : Int := 2

/-- The server's `CloudProvider` object: a display name and the current
status (a `gint` holding one of the server's enum values). -/
structure CloudProvider where
  name : String
  status : Int
deriving DecidableEq, Repr

/-- `cloud_provider_init`: the server starts as name "MyCloud" with status
`SYNCING` (its own enum's value 1). -/
def cloud_provider_init : CloudProvider :=
  { name := "MyCloud", status := SYNCING }

/-- A D-Bus method reply the server's vtable produces: a single-string
tuple, a single-int32 tuple, or no reply (unknown method falls through). -/
inductive MethodReply where
  | replyString (s : String)
  | replyInt (i : Int)
  | unhandled
deriving DecidableEq, Repr

/-- `handle_method_call`: "GetName" returns `(s)` with the provider's name,
"GetStatus" returns `(i)` with the provider's status field, anything else
is left unhandled. -/
def handle_method_call (cloud_provider : CloudProvider)
    (method_name : String) : MethodReply :=
  if method_name = "GetName" then .replyString cloud_provider.name
  else if method_name = "GetStatus" then .replyInt cloud_provider.status
  else .unhandled

/-- The statuses `change_provider` can pick:
`g_rand_int_range (rand, IDLE, ERROR + 1)` draws uniformly from
`[IDLE, ERROR + 1)`. -/
def change_provider_possible (v : Int) : Prop :=
  IDLE ≤ v ∧ v < ERROR + 1

/-- `cloud_provider_set_status`: stores the new status (and notifies the
manager over the bus, which is outside this model's scope). -/
def cloud_provider_set_status (self : CloudProvider) (status : Int) :
    CloudProvider :=
  { self with status := status }

end TestServer

/-- Claim C1: a Proxy freshly created from the descriptor
`(org.example.Cloud, /org/example/Cloud)` caches `name = absent`,
`status = Invalid`; after the asynchronous connection completes, the
implicit refresh runs, and when GetName replies "MyCloud" and GetStatus
replies 2 the final cached state is `name = "MyCloud"`,
`status = Syncing`, with exactly two "changed" notifications fired, one
per reply. -/
theorem C1_end_to_end_scenario :
    gtk_cloud_provider_get_name
      (initialSt "org.example.Cloud" "/org/example/Cloud").priv
      = Option.none ∧
    gtk_cloud_provider_get_status
      (initialSt "org.example.Cloud" "/org/example/Cloud").priv
      = GtkCloudProviderStatus.INVALID.toInt ∧
    ValidTrace (initialSt "org.example.Cloud" "/org/example/Cloud")
      [Event.proxyCreated (DBusResult.ok ()),
       Event.getNameReply (DBusResult.ok "MyCloud"),
       Event.getStatusReply (DBusResult.ok 2)] = true ∧
    gtk_cloud_provider_get_name
      (run (initialSt "org.example.Cloud" "/org/example/Cloud")
        [Event.proxyCreated (DBusResult.ok ()),
         Event.getNameReply (DBusResult.ok "MyCloud"),
         Event.getStatusReply (DBusResult.ok 2)]).1.priv
      = some "MyCloud" ∧
    gtk_cloud_provider_get_status
      (run (initialSt "org.example.Cloud" "/org/example/Cloud")
        [Event.proxyCreated (DBusResult.ok ()),
         Event.getNameReply (DBusResult.ok "MyCloud"),
         Event.getStatusReply (DBusResult.ok 2)]).1.priv
      = GtkCloudProviderStatus.SYNCING.toInt ∧
    totalChanged
      (run (initialSt "org.example.Cloud" "/org/example/Cloud")
        [Event.proxyCreated (DBusResult.ok ()),
         Event.getNameReply (DBusResult.ok "MyCloud"),
         Event.getStatusReply (DBusResult.ok 2)]).2 = 2 ∧
    (run (initialSt "org.example.Cloud" "/org/example/Cloud")
        [Event.proxyCreated (DBusResult.ok ()),
         Event.getNameReply (DBusResult.ok "MyCloud"),
         Event.getStatusReply (DBusResult.ok 2)]).2.map Output.changed
      = [0, 1, 1] := by
  decide

/-- Claim C2: each reply of one refresh is handled independently — a
successful GetName reply updates only `name` and emits one "changed", a
successful GetStatus reply updates only `status` and emits one "changed",
a failed reply logs one warning, leaves its field unchanged and still
emits one "changed"; hence when exactly one of the two calls fails,
exactly the succeeding field updates and two notifications fire in
total (shown for both failure assignments and both completion orders). -/
theorem C2_independent_reply_handling (priv : GtkCloudProviderPrivate)
    (v : String) (i : Int) (eN eS : String) :
    (on_get_name priv (DBusResult.ok v)).1 = { priv with name := some v } ∧
    (on_get_name priv (DBusResult.ok v)).2.changed = 1 ∧
    (on_get_status priv (DBusResult.ok i)).1 = { priv with status := i } ∧
    (on_get_status priv (DBusResult.ok i)).2.changed = 1 ∧
    (on_get_name priv (DBusResult.err eN)).1 = priv ∧
    (on_get_name priv (DBusResult.err eN)).2.changed = 1 ∧
    (on_get_name priv (DBusResult.err eN)).2.warnings = 1 ∧
    (on_get_status priv (DBusResult.err eS)).1 = priv ∧
    (on_get_status priv (DBusResult.err eS)).2.changed = 1 ∧
    (on_get_status priv (DBusResult.err eS)).2.warnings = 1 ∧
    (on_get_status (on_get_name priv (DBusResult.err eN)).1
        (DBusResult.ok i)).1 = { priv with status := i } ∧
    (on_get_name priv (DBusResult.err eN)).2.changed
      + (on_get_status (on_get_name priv (DBusResult.err eN)).1
          (DBusResult.ok i)).2.changed = 2 ∧
    (on_get_name (on_get_status priv (DBusResult.err eS)).1
        (DBusResult.ok v)).1 = { priv with name := some v } ∧
    (on_get_status priv (DBusResult.err eS)).2.changed
      + (on_get_name (on_get_status priv (DBusResult.err eS)).1
          (DBusResult.ok v)).2.changed = 2 ∧
    (on_get_name (on_get_status priv (DBusResult.ok i)).1
        (DBusResult.err eN)).1 = { priv with status := i } ∧
    (on_get_status (on_get_name priv (DBusResult.ok v)).1
        (DBusResult.err eS)).1 = { priv with name := some v } :=
  ⟨rfl, rfl, rfl, rfl, rfl, rfl, rfl, rfl, rfl, rfl, rfl, rfl, rfl, rfl,
   rfl, rfl⟩

/-- Claim C3: on a Proxy whose connection has not been established
(`priv->proxy == NULL`), `refresh` is a complete no-op — no remote call is
issued, no "changed" notification fires, no diagnostic is produced, and
the whole state (in particular name, status, icon and menu) is
unchanged. -/
theorem C3_refresh_unconnected_noop (s : ProxySt)
    (h : s.priv.proxy = Option.none) :
    step s Event.refresh = (s, Output.none) := by
  simp [step, gtk_cloud_provider_update, applyCalls, h, Output.none]

/-- Witness for C3 at a concrete unconnected state. -/
theorem C3_refresh_unconnected_noop_witness :
    (initialSt "org.example.Cloud" "/org/example/Cloud").priv.proxy
      = Option.none ∧
    step (initialSt "org.example.Cloud" "/org/example/Cloud") Event.refresh
      = (initialSt "org.example.Cloud" "/org/example/Cloud", Output.none) :=
  ⟨rfl,
   C3_refresh_unconnected_noop
     (initialSt "org.example.Cloud" "/org/example/Cloud") rfl⟩

/-- `gtk_cloud_provider_update` never mutates the private struct; it only
issues calls. -/
theorem update_fst (p : GtkCloudProviderPrivate) :
    (gtk_cloud_provider_update p).1 = p := by
  unfold gtk_cloud_provider_update
  split <;> rfl

/-- Unfolding `run` one step. -/
theorem run_cons (s : ProxySt) (e : Event) (es : List Event) :
    run s (e :: es)
      = ((run (step s e).1 es).1, (step s e).2 :: (run (step s e).1 es).2) :=
  rfl

/-- How one delivered event transforms the private struct: the connection
callback writes `proxy`, a successful GetName reply writes `name`, a
successful GetStatus reply writes `status`, and nothing else changes any
field. -/
theorem step_priv (s : ProxySt) (e : Event) :
    (step s e).1.priv =
      match e with
      | .proxyCreated (.ok p) => { s.priv with proxy := some p }
      | .proxyCreated (.err _) => { s.priv with proxy := Option.none }
      | .refresh => s.priv
      | .getNameReply (.ok v) => { s.priv with name := some v }
      | .getNameReply (.err _) => s.priv
      | .getStatusReply (.ok v) => { s.priv with status := v }
      | .getStatusReply (.err _) => s.priv := by
  cases e with
  | proxyCreated r =>
      cases r with
      | ok p => exact update_fst { s.priv with proxy := some p }
      | err m => rfl
  | refresh => exact update_fst s.priv
  | getNameReply r => cases r <;> rfl
  | getStatusReply r => cases r <;> rfl

/-- `totalCalls` over a cons. -/
theorem totalCalls_cons (o : Output) (outs : List Output) :
    totalCalls (o :: outs) = o.calls ++ totalCalls outs :=
  rfl

/-- `totalChanged` over a cons. -/
theorem totalChanged_cons (o : Output) (outs : List Output) :
    totalChanged (o :: outs) = o.changed + totalChanged outs :=
  rfl

/-- Once the connection attempt has failed (proxy NULL, nothing pending),
no event a valid trace can deliver changes the state, issues a call, or
emits a notification. -/
theorem run_dead_state (es : List Event) : ∀ s : ProxySt,
    s.priv.proxy = Option.none → s.connectPending = false →
    s.pendingName = 0 → s.pendingStatus = 0 → ValidTrace s es = true →
    (run s es).1 = s ∧ totalCalls (run s es).2 = []
      ∧ totalChanged (run s es).2 = 0 := by
  induction es with
  | nil => intro s _ _ _ _ _; exact ⟨rfl, rfl, rfl⟩
  | cons e es ih =>
    intro s hp hc hn hs hval
    rw [ValidTrace, Bool.and_eq_true] at hval
    obtain ⟨hev, hval2⟩ := hval
    cases e with
    | refresh =>
        have hstep : step s Event.refresh = (s, Output.none) := by
          simp [step, gtk_cloud_provider_update, applyCalls, hp, Output.none]
        obtain ⟨h1, h2, h3⟩ := ih s hp hc hn hs (by rwa [hstep] at hval2)
        rw [run_cons, hstep]
        refine ⟨h1, ?_, ?_⟩
        · rw [totalCalls_cons]
          simp [Output.none, h2]
        · rw [totalChanged_cons]
          simp [Output.none, h3]
    | proxyCreated r => simp [validEvent, hc] at hev
    | getNameReply r => simp [validEvent, hn] at hev
    | getStatusReply r => simp [validEvent, hs] at hev

/-- Claim C4: whenever the asynchronous connection completes successfully,
the connection-completion handler immediately performs the implicit first
refresh: it stores the proxy and issues both the GetName and the GetStatus
calls (both become in flight), with no caller action. -/
theorem C4_implicit_first_refresh (s : ProxySt) :
    (step s (Event.proxyCreated (DBusResult.ok ()))).2.calls
      = ["GetName", "GetStatus"] ∧
    (step s (Event.proxyCreated (DBusResult.ok ()))).1.priv.proxy
      = some () ∧
    (step s (Event.proxyCreated (DBusResult.ok ()))).1.pendingName
      = s.pendingName + 1 ∧
    (step s (Event.proxyCreated (DBusResult.ok ()))).1.pendingStatus
      = s.pendingStatus + 1 :=
  ⟨rfl, rfl, rfl, rfl⟩

/-- Claim C5: a failed connection is terminal for the Proxy — the proxy
field stays NULL forever, no remote call is ever issued, no notification
ever fires, and all four accessors keep returning the defaults (absent,
Invalid, absent, absent) on every event sequence the main loop can still
deliver. -/
theorem C5_connection_failure_terminal (bn op msg : String)
    (es : List Event)
    (hval : ValidTrace ((step (initialSt bn op)
        (Event.proxyCreated (DBusResult.err msg))).1) es = true) :
    gtk_cloud_provider_get_name
      (run ((step (initialSt bn op)
        (Event.proxyCreated (DBusResult.err msg))).1) es).1.priv
      = Option.none ∧
    gtk_cloud_provider_get_status
      (run ((step (initialSt bn op)
        (Event.proxyCreated (DBusResult.err msg))).1) es).1.priv
      = GtkCloudProviderStatus.INVALID.toInt ∧
    gtk_cloud_provider_get_icon
      (run ((step (initialSt bn op)
        (Event.proxyCreated (DBusResult.err msg))).1) es).1.priv
      = Option.none ∧
    gtk_cloud_provider_get_menu
      (run ((step (initialSt bn op)
        (Event.proxyCreated (DBusResult.err msg))).1) es).1.priv
      = Option.none ∧
    (run ((step (initialSt bn op)
        (Event.proxyCreated (DBusResult.err msg))).1) es).1.priv.proxy
      = Option.none ∧
    totalCalls (run ((step (initialSt bn op)
        (Event.proxyCreated (DBusResult.err msg))).1) es).2 = [] ∧
    totalChanged (run ((step (initialSt bn op)
        (Event.proxyCreated (DBusResult.err msg))).1) es).2 = 0 := by
  obtain ⟨h1, h2, h3⟩ :=
    run_dead_state es
      ((step (initialSt bn op) (Event.proxyCreated (DBusResult.err msg))).1)
      rfl rfl rfl rfl hval
  exact ⟨by rw [h1]; rfl, by rw [h1]; rfl, by rw [h1]; rfl, by rw [h1]; rfl,
    by rw [h1]; rfl, h2, h3⟩

/-- Witness for C5: the concrete descriptor from the spec scenario, a
failed connection, then one refresh attempt. -/
theorem C5_connection_failure_terminal_witness :
    (ValidTrace ((step (initialSt "org.example.Cloud" "/org/example/Cloud")
        (Event.proxyCreated (DBusResult.err "connection refused"))).1)
      [Event.refresh] = true) ∧
    (gtk_cloud_provider_get_name
      (run ((step (initialSt "org.example.Cloud" "/org/example/Cloud")
        (Event.proxyCreated (DBusResult.err "connection refused"))).1)
        [Event.refresh]).1.priv
      = Option.none ∧
    gtk_cloud_provider_get_status
      (run ((step (initialSt "org.example.Cloud" "/org/example/Cloud")
        (Event.proxyCreated (DBusResult.err "connection refused"))).1)
        [Event.refresh]).1.priv
      = GtkCloudProviderStatus.INVALID.toInt ∧
    gtk_cloud_provider_get_icon
      (run ((step (initialSt "org.example.Cloud" "/org/example/Cloud")
        (Event.proxyCreated (DBusResult.err "connection refused"))).1)
        [Event.refresh]).1.priv
      = Option.none ∧
    gtk_cloud_provider_get_menu
      (run ((step (initialSt "org.example.Cloud" "/org/example/Cloud")
        (Event.proxyCreated (DBusResult.err "connection refused"))).1)
        [Event.refresh]).1.priv
      = Option.none ∧
    (run ((step (initialSt "org.example.Cloud" "/org/example/Cloud")
        (Event.proxyCreated (DBusResult.err "connection refused"))).1)
        [Event.refresh]).1.priv.proxy
      = Option.none ∧
    totalCalls (run ((step (initialSt "org.example.Cloud" "/org/example/Cloud")
        (Event.proxyCreated (DBusResult.err "connection refused"))).1)
        [Event.refresh]).2 = [] ∧
    totalChanged (run ((step (initialSt "org.example.Cloud" "/org/example/Cloud")
        (Event.proxyCreated (DBusResult.err "connection refused"))).1)
        [Event.refresh]).2 = 0) :=
  ⟨by decide,
   C5_connection_failure_terminal "org.example.Cloud" "/org/example/Cloud"
     "connection refused" [Event.refresh] (by decide)⟩

/-- Is this event a successful GetStatus reply carrying the int32 value 0
(the encoding of `GTK_CLOUD_PROVIDER_STATUS_INVALID`)? -/
def Event.isOkStatusZero : Event → Bool
  | .getStatusReply (.ok v) => decide (v = 0)
  | _ => false

/-- No event in the list is a successful GetStatus reply carrying 0. -/
def noOkStatusZero (es : List Event) : Bool :=
  es.all (fun e => ! e.isOkStatusZero)

/-- Counterexample to claim C6 as stated: after the status has been set to
Syncing by a successful GetStatus reply, a later refresh whose GetStatus
call successfully replies 0 — a value the daemon may return, since 0 is
part of the wire enumeration — puts the cached status back to the default
Invalid value, on the same live Proxy. -/
theorem C6_counterexample :
    ValidTrace (initialSt "org.example.Cloud" "/org/example/Cloud")
      [Event.proxyCreated (DBusResult.ok ()),
       Event.getStatusReply (DBusResult.ok 2),
       Event.refresh,
       Event.getStatusReply (DBusResult.ok 0)] = true ∧
    gtk_cloud_provider_get_status
      (run (initialSt "org.example.Cloud" "/org/example/Cloud")
        [Event.proxyCreated (DBusResult.ok ()),
         Event.getStatusReply (DBusResult.ok 2)]).1.priv
      = GtkCloudProviderStatus.SYNCING.toInt ∧
    gtk_cloud_provider_get_status
      (run (initialSt "org.example.Cloud" "/org/example/Cloud")
        [Event.proxyCreated (DBusResult.ok ()),
         Event.getStatusReply (DBusResult.ok 2),
         Event.refresh,
         Event.getStatusReply (DBusResult.ok 0)]).1.priv
      = GtkCloudProviderStatus.INVALID.toInt := by
  decide

/-- Claim C6 as amended, as two independent per-field properties: once
`name` has been set it never becomes absent again, on every event sequence
whatsoever; and once `status` holds a non-Invalid value it never returns
to Invalid by refreshes, connection events or failed replies — the only
way back to Invalid is a later successful GetStatus reply whose int32
value is 0, the encoding of Invalid (regardless of the name field). -/
theorem C6_amended_no_regression (es : List Event) : ∀ s : ProxySt,
    (s.priv.name.isSome = true →
      (run s es).1.priv.name.isSome = true) ∧
    (noOkStatusZero es = true →
      s.priv.status ≠ GtkCloudProviderStatus.INVALID.toInt →
      (run s es).1.priv.status ≠ GtkCloudProviderStatus.INVALID.toInt) := by
  induction es with
  | nil => intro s; exact ⟨fun h1 => h1, fun _ h2 => h2⟩
  | cons e es ih =>
    intro s
    obtain ⟨ihn, ihs⟩ := ih (step s e).1
    constructor
    · intro h1
      rw [run_cons]
      refine ihn ?_
      rw [step_priv]
      cases e with
      | proxyCreated r => cases r <;> exact h1
      | refresh => exact h1
      | getNameReply r => cases r <;> first | rfl | exact h1
      | getStatusReply r => cases r <;> exact h1
    · intro hz h2
      rw [noOkStatusZero, List.all_cons, Bool.and_eq_true] at hz
      obtain ⟨hze, hzs⟩ := hz
      rw [run_cons]
      refine ihs hzs ?_
      rw [step_priv]
      cases e with
      | proxyCreated r => cases r <;> exact h2
      | refresh => exact h2
      | getNameReply r => cases r <;> exact h2
      | getStatusReply r =>
          cases r with
          | ok v =>
              have hv : ¬ (v = 0) := by
                simpa [Event.isOkStatusZero] using hze
              simpa [GtkCloudProviderStatus.toInt] using hv
          | err m => exact h2

/-- Witness for C6 as amended, each half at its own concrete input.  Name
half: a proxy whose GetName succeeded but whose GetStatus never did keeps
its name over a further refresh whose GetName fails and whose GetStatus
successfully replies 0.  Status half: a proxy whose GetName failed but
whose GetStatus set Syncing keeps a non-Invalid status over a further
refresh with a failed GetName and a successful GetStatus replying 3. -/
theorem C6_amended_no_regression_witness :
    ((run (initialSt "org.example.Cloud" "/org/example/Cloud")
      [Event.proxyCreated (DBusResult.ok ()),
       Event.getNameReply (DBusResult.ok "MyCloud")]).1.priv.name.isSome
      = true ∧
    (run (run (initialSt "org.example.Cloud" "/org/example/Cloud")
        [Event.proxyCreated (DBusResult.ok ()),
         Event.getNameReply (DBusResult.ok "MyCloud")]).1
      [Event.refresh, Event.getNameReply (DBusResult.err "timeout"),
       Event.getStatusReply (DBusResult.ok 0)]).1.priv.name.isSome
      = true) ∧
    (noOkStatusZero
      [Event.refresh, Event.getNameReply (DBusResult.err "timeout"),
       Event.getStatusReply (DBusResult.ok 3)] = true ∧
    (run (initialSt "org.example.Cloud" "/org/example/Cloud")
      [Event.proxyCreated (DBusResult.ok ()),
       Event.getNameReply (DBusResult.err "timeout"),
       Event.getStatusReply (DBusResult.ok 2)]).1.priv.status
      ≠ GtkCloudProviderStatus.INVALID.toInt ∧
    (run (run (initialSt "org.example.Cloud" "/org/example/Cloud")
        [Event.proxyCreated (DBusResult.ok ()),
         Event.getNameReply (DBusResult.err "timeout"),
         Event.getStatusReply (DBusResult.ok 2)]).1
      [Event.refresh, Event.getNameReply (DBusResult.err "timeout"),
       Event.getStatusReply (DBusResult.ok 3)]).1.priv.status
      ≠ GtkCloudProviderStatus.INVALID.toInt) :=
  ⟨⟨by decide,
    (C6_amended_no_regression
      [Event.refresh, Event.getNameReply (DBusResult.err "timeout"),
       Event.getStatusReply (DBusResult.ok 0)]
      (run (initialSt "org.example.Cloud" "/org/example/Cloud")
        [Event.proxyCreated (DBusResult.ok ()),
         Event.getNameReply (DBusResult.ok "MyCloud")]).1).1
      (by decide)⟩,
   ⟨by decide, by decide,
    (C6_amended_no_regression
      [Event.refresh, Event.getNameReply (DBusResult.err "timeout"),
       Event.getStatusReply (DBusResult.ok 3)]
      (run (initialSt "org.example.Cloud" "/org/example/Cloud")
        [Event.proxyCreated (DBusResult.ok ()),
         Event.getNameReply (DBusResult.err "timeout"),
         Event.getStatusReply (DBusResult.ok 2)]).1).2
      (by decide) (by decide)⟩⟩

/-- Claim C7 (refuted by the test server): the client side does use the
four-value enumeration — `GtkCloudProviderStatus` encodes Invalid/Idle/
Syncing/Error as 0/1/2/3 and `on_get_status` stores the raw int32 reply
under exactly this mapping — but the test server daemon does not: its own
enum is `IDLE, SYNCING, ERROR` = 0, 1, 2.  In its initial state (which it
calls SYNCING) it replies 1 to GetStatus, which the client's enumeration
decodes as Idle; its IDLE coincides with the client's Invalid, its ERROR
with the client's Syncing, and no status it can ever pick
(`change_provider` draws from `[IDLE, ERROR + 1)`) is the client's
encoding of Error. -/
theorem C7_status_enumeration_mismatch :
    GtkCloudProviderStatus.INVALID.toInt = 0 ∧
    GtkCloudProviderStatus.IDLE.toInt = 1 ∧
    GtkCloudProviderStatus.SYNCING.toInt = 2 ∧
    GtkCloudProviderStatus.ERROR.toInt = 3 ∧
    (on_get_status
      (gtk_cloud_provider_new "org.gtk.CloudProviderServerExample"
        "/org/gtk/CloudProviderServerExample")
      (DBusResult.ok 2)).1.status = GtkCloudProviderStatus.SYNCING.toInt ∧
    TestServer.handle_method_call TestServer.cloud_provider_init "GetStatus"
      = TestServer.MethodReply.replyInt 1 ∧
    TestServer.cloud_provider_init.status = TestServer.SYNCING ∧
    TestServer.SYNCING ≠ GtkCloudProviderStatus.SYNCING.toInt ∧
    GtkCloudProviderStatus.ofInt TestServer.SYNCING
      = some GtkCloudProviderStatus.IDLE ∧
    TestServer.IDLE = GtkCloudProviderStatus.INVALID.toInt ∧
    TestServer.ERROR = GtkCloudProviderStatus.SYNCING.toInt ∧
    (on_get_status
      (gtk_cloud_provider_new "org.gtk.CloudProviderServerExample"
        "/org/gtk/CloudProviderServerExample")
      (DBusResult.ok TestServer.SYNCING)).1.status
      = GtkCloudProviderStatus.IDLE.toInt ∧
    ¬ TestServer.change_provider_possible GtkCloudProviderStatus.ERROR.toInt := by
  refine ⟨by decide, by decide, by decide, by decide, by decide, by decide,
    by decide, by decide, by decide, by decide, by decide, by decide, ?_⟩
  unfold TestServer.change_provider_possible
  decide

/-- Claim C9 (refuted on the reply-failure branch): connection failure is
handled cleanly (one warning, nothing else), and a failed reply does leave
the field unchanged and only warns before notifying — but the `out:`
cleanup of both reply handlers runs `g_variant_unref (variant_tuple)` even
though `g_dbus_proxy_call_finish` returned NULL for the failed call, an
invalid operation on the absent reply that raises one GLib critical per
failed reply (non-fatal only because `g_variant_unref` guards itself with
`g_return_if_fail`). -/
theorem C9_error_cleanup_touches_absent_reply :
    g_dbus_proxy_call_finish
      (DBusResult.err "transport error" : DBusResult String)
      = Option.none ∧
    g_variant_unref (Option.none : Option String) = 1 ∧
    (on_get_name
      (gtk_cloud_provider_new "org.example.Cloud" "/org/example/Cloud")
      (DBusResult.err "transport error")).2
      = { calls := [], changed := 1, warnings := 1, criticals := 1 } ∧
    (on_get_name
      (gtk_cloud_provider_new "org.example.Cloud" "/org/example/Cloud")
      (DBusResult.err "transport error")).1
      = gtk_cloud_provider_new "org.example.Cloud" "/org/example/Cloud" ∧
    (on_get_status
      (gtk_cloud_provider_new "org.example.Cloud" "/org/example/Cloud")
      (DBusResult.err "transport error")).2
      = { calls := [], changed := 1, warnings := 1, criticals := 1 } ∧
    (on_get_status
      (gtk_cloud_provider_new "org.example.Cloud" "/org/example/Cloud")
      (DBusResult.err "transport error")).1
      = gtk_cloud_provider_new "org.example.Cloud" "/org/example/Cloud" ∧
    (on_proxy_created
      (gtk_cloud_provider_new "org.example.Cloud" "/org/example/Cloud")
      (DBusResult.err "connection refused")).2
      = { calls := [], changed := 0, warnings := 1, criticals := 0 } ∧
    (on_get_name
      (gtk_cloud_provider_new "org.example.Cloud" "/org/example/Cloud")
      (DBusResult.ok "MyCloud")).2.criticals = 0 ∧
    (on_get_status
      (gtk_cloud_provider_new "org.example.Cloud" "/org/example/Cloud")
      (DBusResult.ok 2)).2.criticals = 0 := by
  decide

/-- Spec-side definition for C8, following the spec's words
"last-writer-wins per field, where last means most-recently-completed":
the cached name after a sequence of completions is the value carried by
the most recent successful GetName reply, or the previous cached value if
no successful GetName reply completed. -/
def specFinalName (old : Option String) (es : List Event) : Option String :=
  es.foldl (fun acc e =>
    match e with
    | .getNameReply (.ok v) => some v
    | _ => acc) old

/-- Spec-side definition for C8, same reading for the status field: the
value carried by the most recent successful GetStatus reply, or the
previous cached value. -/
def specFinalStatus (old : Int) (es : List Event) : Int :=
  es.foldl (fun acc e =>
    match e with
    | .getStatusReply (.ok v) => v
    | _ => acc) old

/-- The code's run of any event sequence realises the spec's
last-completed-wins reading, field by field. -/
theorem run_last_wins_aux (es : List Event) : ∀ s : ProxySt,
    (run s es).1.priv.name = specFinalName s.priv.name es ∧
    (run s es).1.priv.status = specFinalStatus s.priv.status es := by
  induction es with
  | nil => intro s; exact ⟨rfl, rfl⟩
  | cons e es ih =>
    intro s
    obtain ⟨ihn, ihs⟩ := ih (step s e).1
    rw [run_cons]
    constructor
    · rw [ihn, step_priv]
      cases e with
      | proxyCreated r => cases r <;> rfl
      | refresh => rfl
      | getNameReply r => cases r <;> rfl
      | getStatusReply r => cases r <;> rfl
    · rw [ihs, step_priv]
      cases e with
      | proxyCreated r => cases r <;> rfl
      | refresh => rfl
      | getNameReply r => cases r <;> rfl
      | getStatusReply r => cases r <;> rfl

/-- Claim C8: for every deliverable interleaving of completions of
overlapping refreshes, each reply completion touches only its own field
(a GetName completion never changes status, icon or menu, a GetStatus
completion never changes name, icon or menu), and the final cached value
of each field is the one delivered by the most-recently-completed
successful reply for that field — or the prior cached value when no
successful reply for it completed — independent of issuing order. -/
theorem C8_last_completed_wins (s : ProxySt) (es : List Event)
    (t : ProxySt) (rn : DBusResult String) (rs : DBusResult Int)
    (_hval : ValidTrace s es = true) :
    (run s es).1.priv.name = specFinalName s.priv.name es ∧
    (run s es).1.priv.status = specFinalStatus s.priv.status es ∧
    (step t (Event.getNameReply rn)).1.priv.status = t.priv.status ∧
    (step t (Event.getNameReply rn)).1.priv.icon = t.priv.icon ∧
    (step t (Event.getNameReply rn)).1.priv.menu = t.priv.menu ∧
    (step t (Event.getStatusReply rs)).1.priv.name = t.priv.name ∧
    (step t (Event.getStatusReply rs)).1.priv.icon = t.priv.icon ∧
    (step t (Event.getStatusReply rs)).1.priv.menu = t.priv.menu := by
  obtain ⟨hn, hs⟩ := run_last_wins_aux es s
  refine ⟨hn, hs, ?_, ?_, ?_, ?_, ?_, ?_⟩ <;>
    rw [step_priv] <;> cases rn <;> cases rs <;> rfl

/-- Witness for C8: two overlapping refreshes; GetName completes with "A"
then "B", GetStatus with 1 then 3; the final cache holds name "B" and
status 3, the values of the most-recently-completed replies. -/
theorem C8_last_completed_wins_witness :
    ValidTrace (initialSt "org.example.Cloud" "/org/example/Cloud")
      [Event.proxyCreated (DBusResult.ok ()), Event.refresh,
       Event.getNameReply (DBusResult.ok "A"),
       Event.getStatusReply (DBusResult.ok 1),
       Event.getNameReply (DBusResult.ok "B"),
       Event.getStatusReply (DBusResult.ok 3)] = true ∧
    ((run (initialSt "org.example.Cloud" "/org/example/Cloud")
      [Event.proxyCreated (DBusResult.ok ()), Event.refresh,
       Event.getNameReply (DBusResult.ok "A"),
       Event.getStatusReply (DBusResult.ok 1),
       Event.getNameReply (DBusResult.ok "B"),
       Event.getStatusReply (DBusResult.ok 3)]).1.priv.name
      = specFinalName
          (initialSt "org.example.Cloud" "/org/example/Cloud").priv.name
          [Event.proxyCreated (DBusResult.ok ()), Event.refresh,
           Event.getNameReply (DBusResult.ok "A"),
           Event.getStatusReply (DBusResult.ok 1),
           Event.getNameReply (DBusResult.ok "B"),
           Event.getStatusReply (DBusResult.ok 3)] ∧
    (run (initialSt "org.example.Cloud" "/org/example/Cloud")
      [Event.proxyCreated (DBusResult.ok ()), Event.refresh,
       Event.getNameReply (DBusResult.ok "A"),
       Event.getStatusReply (DBusResult.ok 1),
       Event.getNameReply (DBusResult.ok "B"),
       Event.getStatusReply (DBusResult.ok 3)]).1.priv.status
      = specFinalStatus
          (initialSt "org.example.Cloud" "/org/example/Cloud").priv.status
          [Event.proxyCreated (DBusResult.ok ()), Event.refresh,
           Event.getNameReply (DBusResult.ok "A"),
           Event.getStatusReply (DBusResult.ok 1),
           Event.getNameReply (DBusResult.ok "B"),
           Event.getStatusReply (DBusResult.ok 3)] ∧
    (step (initialSt "x" "y")
      (Event.getNameReply (DBusResult.ok "N"))).1.priv.status
      = (initialSt "x" "y").priv.status ∧
    (step (initialSt "x" "y")
      (Event.getNameReply (DBusResult.ok "N"))).1.priv.icon
      = (initialSt "x" "y").priv.icon ∧
    (step (initialSt "x" "y")
      (Event.getNameReply (DBusResult.ok "N"))).1.priv.menu
      = (initialSt "x" "y").priv.menu ∧
    (step (initialSt "x" "y")
      (Event.getStatusReply (DBusResult.err "E"))).1.priv.name
      = (initialSt "x" "y").priv.name ∧
    (step (initialSt "x" "y")
      (Event.getStatusReply (DBusResult.err "E"))).1.priv.icon
      = (initialSt "x" "y").priv.icon ∧
    (step (initialSt "x" "y")
      (Event.getStatusReply (DBusResult.err "E"))).1.priv.menu
      = (initialSt "x" "y").priv.menu) :=
  ⟨by decide,
   C8_last_completed_wins
     (initialSt "org.example.Cloud" "/org/example/Cloud")
     [Event.proxyCreated (DBusResult.ok ()), Event.refresh,
      Event.getNameReply (DBusResult.ok "A"),
      Event.getStatusReply (DBusResult.ok 1),
      Event.getNameReply (DBusResult.ok "B"),
      Event.getStatusReply (DBusResult.ok 3)]
     (initialSt "x" "y") (DBusResult.ok "N") (DBusResult.err "E")
     (by decide)⟩

/-- Does every output of a trace issue either no remote call at all or
exactly the pair GetName, GetStatus? -/
def onlyNameStatusCalls (outs : List Output) : Bool :=
  outs.all (fun o =>
    o.calls == ([] : List String) || o.calls == ["GetName", "GetStatus"])

/-- Whatever the state, `gtk_cloud_provider_update` issues either nothing
or exactly GetName and GetStatus. -/
theorem update_calls (p : GtkCloudProviderPrivate) :
    ((gtk_cloud_provider_update p).2.calls == ([] : List String)
      || (gtk_cloud_provider_update p).2.calls
          == ["GetName", "GetStatus"]) = true := by
  unfold gtk_cloud_provider_update
  split <;> rfl

/-- No single event can issue anything but the GetName / GetStatus pair. -/
theorem step_calls (s : ProxySt) (e : Event) :
    ((step s e).2.calls == ([] : List String)
      || (step s e).2.calls == ["GetName", "GetStatus"]) = true := by
  cases e with
  | proxyCreated r =>
      cases r with
      | ok p => exact update_calls { s.priv with proxy := some p }
      | err m => rfl
  | refresh => exact update_calls s.priv
  | getNameReply r => cases r <;> rfl
  | getStatusReply r => cases r <;> rfl

/-- No event ever writes the icon or menu field. -/
theorem step_icon_menu (s : ProxySt) (e : Event) :
    (step s e).1.priv.icon = s.priv.icon ∧
    (step s e).1.priv.menu = s.priv.menu := by
  rw [step_priv]
  cases e with
  | proxyCreated r => cases r <;> exact ⟨rfl, rfl⟩
  | refresh => exact ⟨rfl, rfl⟩
  | getNameReply r => cases r <;> exact ⟨rfl, rfl⟩
  | getStatusReply r => cases r <;> exact ⟨rfl, rfl⟩

/-- Over a whole trace: icon and menu are never touched, and only GetName
and GetStatus are ever called. -/
theorem run_icon_menu_calls (es : List Event) : ∀ s : ProxySt,
    (run s es).1.priv.icon = s.priv.icon ∧
    (run s es).1.priv.menu = s.priv.menu ∧
    onlyNameStatusCalls (run s es).2 = true := by
  induction es with
  | nil => intro s; exact ⟨rfl, rfl, rfl⟩
  | cons e es ih =>
    intro s
    obtain ⟨h1, h2, h3⟩ := ih (step s e).1
    obtain ⟨hi, hm⟩ := step_icon_menu s e
    rw [run_cons]
    refine ⟨by rw [h1, hi], by rw [h2, hm], ?_⟩
    rw [onlyNameStatusCalls, List.all_cons, Bool.and_eq_true]
    exact ⟨step_calls s e, h3⟩

/-- Claim C10: no operation of a Proxy ever populates the icon or menu
fields — every call issued over any event sequence is GetName or GetStatus
(issued as the pair of a refresh) and no completion handler writes icon or
menu — so for the entire lifetime of every Proxy, `get_icon` and
`get_menu` return absent. -/
theorem C10_icon_menu_never_populated (bus_name object_path : String)
    (es : List Event) :
    gtk_cloud_provider_get_icon
      (run (initialSt bus_name object_path) es).1.priv = Option.none ∧
    gtk_cloud_provider_get_menu
      (run (initialSt bus_name object_path) es).1.priv = Option.none ∧
    onlyNameStatusCalls (run (initialSt bus_name object_path) es).2
      = true := by
  obtain ⟨h1, h2, h3⟩ := run_icon_menu_calls es (initialSt bus_name object_path)
  exact ⟨h1, h2, h3⟩

end Gtk
